import Mathlib

set_option maxHeartbeats 1000000

/- Shallow embedding of the marshaling layer of the go-hdf5 package:
   Attribute.Read/Write/Close (h5a.go), Dataset.ReadSubset/WriteSubset/Close
   (h5d.go) and the unnamed Attribute.Read variant (src/unnamed/part_000).
   The three source files call into the external HDF5 C library
   (H5Aread, H5Awrite, H5Dread, H5Dwrite, H5Aget_type, H5Dget_type,
   H5Aget_storage_size, H5Aclose, H5Dclose) and into helpers whose sources
   are not part of the three files (NewDataTypeFromType, Datatype, h5err);
   those parts are modelled from the spec where noted, with a doc comment
   on each such definition. -/

/-- Go reflect kinds / in-process element types relevant to the marshaler.
`other` stands for in-process kinds with no storage mapping
(func, chan, map, struct, ...). -/
inductive GoKind where
  | int | int8 | int16 | int32 | int64
  | uint | uint8 | uint16 | uint32 | uint64
  | float32 | float64 | bool | string
  | other (name : String)
deriving DecidableEq

/-- Byte size of each in-process element kind on a 64-bit platform
(what `typ.Size()` reports for the corresponding storage type). -/
def GoKind.size : GoKind → Nat
  | .int => 8 | .int64 => 8 | .uint => 8 | .uint64 => 8 | .float64 => 8
  | .int32 => 4 | .uint32 => 4 | .float32 => 4
  | .int16 => 2 | .uint16 => 2
  | .int8 => 1 | .uint8 => 1 | .bool => 1
  | .string => 16
  | .other _ => 0

/-- Modelled from the spec: the Type Mapper has a defined mapping for
primitive numeric and textual kinds and fails with `UnsupportedType` for
any kind without one (user-defined composite types, function types,
channel-like types). -/
def GoKind.supported : GoKind → Bool
  | .other _ => false
  | _ => true

/-- Printable name of a kind, as `reflect.Kind.String()` would produce it
(used only as the payload of error values built with `fmt.Errorf`). -/
def GoKind.name : GoKind → String
  | .int => "int" | .int8 => "int8" | .int16 => "int16"
  | .int32 => "int32" | .int64 => "int64"
  | .uint => "uint" | .uint8 => "uint8" | .uint16 => "uint16"
  | .uint32 => "uint32" | .uint64 => "uint64"
  | .float32 => "float32" | .float64 => "float64"
  | .bool => "bool" | .string => "string"
  | .other n => n

/-- In-process (reflect) types handed to `NewDataTypeFromType`. -/
inductive GoType where
  | scalarT (k : GoKind)
  | arrayT (n : Nat) (elem : GoKind)
  | sliceT (elem : GoKind)
  | stringT
deriving DecidableEq

/-- Storage-type descriptor (the `Datatype` wrapper): carries the
in-process kind it corresponds to; `GoType()` returns that kind and
`Size()` its byte size. -/
structure Datatype where
  goKind : GoKind
deriving DecidableEq

/-- Null byte used by the text paths (`"\x00"` in the Go source). -/
def nullChar : Char := Char.ofNat 0

/-- Result of `strings.Trim(buf, "\x00")`: removes leading and trailing
runs of null characters (both ends). -/
def trimNulls (l : List Char) : List Char :=
  ((l.dropWhile (fun c => c = nullChar)).reverse.dropWhile
    (fun c => c = nullChar)).reverse

/-- Fixed-size text cell update: the written text truncated or null-padded
to the cell's byte capacity. -/
def padTo (cap : Nat) (s : List Char) : List Char :=
  s.take cap ++ List.replicate (cap - s.length) nullChar

/-- Raw memory copy of `src` into a buffer currently holding `dst`:
the buffer keeps its length; `src` overwrites its prefix. -/
def overwrite {α : Type} (dst src : List α) : List α :=
  src.take dst.length ++ dst.drop src.length

/-- Contents of a record on the storage side: either fixed text bytes
(padding included) or a flat sequence of elements of one kind. -/
inductive Stored where
  | text (bytes : List Char)
  | elems (k : GoKind) (vs : List Int)
deriving DecidableEq

/-- Modelled from the spec: `storageSize(handle) -> byteCount`
(`H5Aget_storage_size`): total on-disk byte size of the record's value. -/
def Stored.storageSize : Stored → Nat
  | .text b => b.length
  | .elems k vs => vs.length * k.size

/-- An in-process value as seen through `reflect.ValueOf(data)`:
a nil pointer, a non-nil pointer to a value, a fixed array, a slice
(visible elements plus spare capacity cells), a Go string, or an
addressable scalar. -/
inductive Value where
  | ptrNil
  | ptr (p : Value)
  | array (elem : GoKind) (elems : List Int)
  | slice (elem : GoKind) (elems : List Int) (spare : List Int)
  | str (s : List Char)
  | scalar (k : GoKind) (v : Int)
deriving DecidableEq

/-- Name of the value's reflect kind (payload of the non-pointer error). -/
def Value.kindName : Value → String
  | .ptrNil => "ptr"
  | .ptr _ => "ptr"
  | .array _ _ => "array"
  | .slice _ _ _ => "slice"
  | .str _ => "string"
  | .scalar k _ => k.name

/-- In-process element kind of a dereferenced destination (array, slice,
string and scalar destinations; pointers have none). -/
def Value.elemKind : Value → Option GoKind
  | .ptrNil => none
  | .ptr _ => none
  | .array k _ => some k
  | .slice k _ _ => some k
  | .str _ => some .string
  | .scalar k _ => some k

/-- True exactly for a zero-length fixed-array value. -/
def Value.isEmptyArray : Value → Bool
  | .array _ [] => true
  | _ => false

/-- Visible sequence length of a pointer-to-slice value, if it is one. -/
def Value.seqLen : Value → Option Nat
  | .ptr (.slice _ es _) => some es.length
  | _ => none

/-- True exactly when the value is a usable read destination: a non-nil
pointer (`v.Kind() == reflect.Ptr && !v.IsNil()`). -/
def Value.isReadTarget : Value → Bool
  | .ptr _ => true
  | _ => false

/-- The in-process type of a non-pointer value, as `v.Elem().Type()`. -/
def Value.goTypeOf : Value → Option GoType
  | .ptrNil => none
  | .ptr _ => none
  | .array k es => some (.arrayT es.length k)
  | .slice k _ _ => some (.sliceT k)
  | .str _ => some .stringT
  | .scalar k _ => some (.scalarT k)

/-- Error taxonomy of the marshaling layer (the Go code builds these with
`fmt.Errorf`; the payloads model the formatted-in operands). -/
inductive H5Err where
  | invalidTarget (kind : String)
  | typeMismatch (attrType destType : GoKind)
  | unsupportedType (t : GoType)
  | typeQueryFailed (recName : String)
  | closeFailed
  | transferFailed (code : Int)
deriving DecidableEq

/-- One open record (h5a.go `type Attribute Identifier`, h5d.go
`type Dataset Identifier`, both wrapping a `C.hid_t` handle).
`id = 0` means closed. `dtype` is the record's on-disk type and `stored`
its on-disk contents. `closeFails` models the store reporting a failing
status from `close(handle)` (spec section 6). -/
structure Record where
  id : Nat
  dtype : GoKind
  stored : Stored
  closeFails : Bool
deriving DecidableEq

/-- Status of one transfer call: normal return with success, normal return
with an error value, or a runtime panic. -/
inductive TStatus where
  | ok
  | error (e : H5Err)
  | panicked
deriving DecidableEq

/-- Observable trace of one `Read`/`Write` call: its status, the data
argument after the call (pointee updates applied), the record state after
the call, the number of raw store transfers invoked, and how many
StorageType handles were derived or queried versus closed before return. -/
structure TraceResult where
  status : TStatus
  dest : Value
  record : Record
  transfers : Nat
  typesOpened : Nat
  typesClosed : Nat
deriving DecidableEq

/-- Modelled from the spec: the Type Mapper
`DeriveStorageType(processType) -> StorageType|Error`
(`NewDataTypeFromType`, whose source is outside the three files):
maps primitive numeric and textual kinds to storage types of matching
width, and fails with `UnsupportedType` for kinds with no mapping;
on success the returned descriptor is a fresh owned handle. -/
def NewDataTypeFromType : GoType → Except H5Err Datatype
  | .scalarT k =>
    if k.supported then .ok ⟨k⟩ else .error (.unsupportedType (.scalarT k))
  | .arrayT n e =>
    if e.supported then .ok ⟨e⟩ else .error (.unsupportedType (.arrayT n e))
  | .sliceT e =>
    if e.supported then .ok ⟨e⟩ else .error (.unsupportedType (.sliceT e))
  | .stringT => .ok ⟨.string⟩

/-- Attribute.GetType of h5a.go (lines 75-78). Modelled from the spec:
the store's `getType(handle)` query returns a fresh owned copy of the
record's on-disk type. -/
def Attribute.GetType (s : Record) : Datatype := ⟨s.dtype⟩

/-- Dataset.Datatype of h5d.go (lines 181-187): queries `H5Dget_type` and
fails, naming the record, when the store returns a negative id.
Modelled from the spec: the query fails on a closed/invalid handle. -/
def Dataset.Datatype (s : Record) : Except H5Err Datatype :=
  if s.id = 0 then .error (.typeQueryFailed "Dataset") else .ok ⟨s.dtype⟩

/-- Result of one `Close` call: the record afterwards, the returned error,
and how many times the store's underlying close was invoked. -/
structure CloseResult where
  record : Record
  err : Option H5Err
  storeCalls : Nat
deriving DecidableEq

/-- Attribute.Close of h5a.go (lines 81-88): a zero handle returns nil at
once; otherwise the store's close runs, the handle is set to 0
unconditionally, and the close status is returned. -/
def Attribute.Close (s : Record) : CloseResult :=
  if s.id = 0 then ⟨s, none, 0⟩
  else ⟨{ s with id := 0 }, if s.closeFails then some .closeFailed else none, 1⟩

/-- Dataset.Close of h5d.go (lines 45-52): textually the same body as
Attribute.Close. -/
def Dataset.Close (s : Record) : CloseResult :=
  if s.id = 0 then ⟨s, none, 0⟩
  else ⟨{ s with id := 0 }, if s.closeFails then some .closeFailed else none, 1⟩

/-- Attribute.Read of h5a.go (lines 100-165): require a non-nil pointer,
query the attribute's on-disk type (`GetType`, closed by `defer` on every
later return), dispatch on the destination's kind, validate the
destination's element type against the queried type, prepare the buffer
(string: storage-size buffer then trim nulls from both ends; slice:
resize to storageSize / typeSize before resolving the address), and invoke
the raw read. The raw store read is modelled from the spec: it copies the
record's stored contents into the resolved buffer. -/
def Attribute.Read (s : Record) (data : Value) : TraceResult :=
  match data with
  | .ptr v =>
    let typ := Attribute.GetType s
    match v with
    | .array elemK elems =>
      if elems.length = 0 then
        ⟨.ok, data, s, 0, 1, 1⟩
      else if elemK ≠ typ.goKind then
        ⟨.error (.typeMismatch typ.goKind elemK), data, s, 0, 1, 1⟩
      else
        match s.stored with
        | .elems _ vs =>
          ⟨.ok, .ptr (.array elemK (overwrite elems vs)), s, 1, 1, 1⟩
        | .text _ =>
          ⟨.error (.transferFailed (-1)), data, s, 1, 1, 1⟩
    | .str ds =>
      if typ.goKind ≠ .string then
        ⟨.error (.typeMismatch typ.goKind .string), data, s, 0, 1, 1⟩
      else
        let ln := s.stored.storageSize
        let buf := if ln ≤ ds.length then ds.take ln
                   else List.replicate ln nullChar
        match s.stored with
        | .text t =>
          ⟨.ok, .ptr (.str (trimNulls (overwrite buf t))), s, 1, 1, 1⟩
        | .elems _ _ =>
          ⟨.error (.transferFailed (-1)), data, s, 1, 1, 1⟩
    | .slice elemK elems spare =>
      if elemK ≠ typ.goKind then
        ⟨.error (.typeMismatch typ.goKind elemK), data, s, 0, 1, 1⟩
      else
        let ln := s.stored.storageSize / typ.goKind.size
        let es := if ln ≤ elems.length + spare.length
                  then (elems ++ spare).take ln else List.replicate ln 0
        let sp := if ln ≤ elems.length + spare.length
                  then (elems ++ spare).drop ln else []
        match s.stored with
        | .elems _ vs =>
          ⟨.ok, .ptr (.slice elemK (overwrite es vs) sp), s, 1, 1, 1⟩
        | .text _ =>
          ⟨.error (.transferFailed (-1)), data, s, 1, 1, 1⟩
    | .ptr p =>
      let inner := Attribute.Read s (.ptr p)
      ⟨inner.status, .ptr inner.dest, inner.record, inner.transfers,
        inner.typesOpened + 1, inner.typesClosed + 1⟩
    | .ptrNil =>
      let inner := Attribute.Read s .ptrNil
      ⟨inner.status, .ptr inner.dest, inner.record, inner.transfers,
        inner.typesOpened + 1, inner.typesClosed + 1⟩
    | .scalar k val =>
      if k ≠ typ.goKind then
        ⟨.error (.typeMismatch typ.goKind k), data, s, 0, 1, 1⟩
      else
        match s.stored with
        | .elems _ vs =>
          ⟨.ok, .ptr (.scalar k (vs.headD val)), s, 1, 1, 1⟩
        | .text _ =>
          ⟨.error (.transferFailed (-1)), data, s, 1, 1, 1⟩
  | _ => ⟨.error (.invalidTarget data.kindName), data, s, 0, 0, 0⟩

/-- Common tail of Attribute.Write in h5a.go (lines 200-206): derive the
storage type from the source's in-process type, raw-write the source's
flat elements into the record, and return; the derived storage type is
never closed. The raw store write is modelled from the spec: it replaces
the record's stored elements with the source bytes, the record keeping its
on-disk element count. -/
def Attribute.writeElems (s : Record) (data : Value) (srcTy : GoType)
    (src : List Int) : TraceResult :=
  match NewDataTypeFromType srcTy with
  | .error e => ⟨.error e, data, s, 0, 0, 0⟩
  | .ok _ =>
    match s.stored with
    | .elems k0 vs =>
      ⟨.ok, data, { s with stored := .elems k0 (overwrite vs src) }, 1, 1, 0⟩
    | .text _ =>
      ⟨.error (.transferFailed (-1)), data, s, 1, 1, 0⟩

/-- Attribute.Write of h5a.go (lines 168-207): require a non-nil pointer,
dispatch on the source kind; the string case derives a storage type from
the string's type and raw-writes the text (the record's fixed-size text
cell takes the text truncated or null-padded to its capacity, modelled
from the spec); the remaining cases resolve the flat address and fall to
the common tail. No derived storage type is ever closed on any path. -/
def Attribute.Write (s : Record) (data : Value) : TraceResult :=
  match data with
  | .ptr v =>
    match v with
    | .array k elems => Attribute.writeElems s data (.arrayT elems.length k) elems
    | .str sv =>
      match NewDataTypeFromType .stringT with
      | .error e => ⟨.error e, data, s, 0, 0, 0⟩
      | .ok _ =>
        match s.stored with
        | .text t0 =>
          ⟨.ok, data, { s with stored := .text (padTo t0.length sv) }, 1, 1, 0⟩
        | .elems _ _ =>
          ⟨.error (.transferFailed (-1)), data, s, 1, 1, 0⟩
    | .slice k elems _spare => Attribute.writeElems s data (.sliceT k) elems
    | .ptr p =>
      let inner := Attribute.Write s (.ptr p)
      { inner with dest := .ptr inner.dest }
    | .ptrNil =>
      let inner := Attribute.Write s .ptrNil
      { inner with dest := .ptr inner.dest }
    | .scalar k val => Attribute.writeElems s data (.scalarT k) [val]
  | _ => ⟨.error (.invalidTarget data.kindName), data, s, 0, 0, 0⟩

/-- Attribute.Read of the unnamed variant (src/unnamed/part_000,
lines 99-157): like h5a.go Attribute.Read but the storage type is derived
from the destination's in-process type with `NewDataTypeFromType` instead
of queried, and there is no type validation. `defer typ.Close()` is only
registered after the switch (line 151), before the error from the
derivation is checked: a failed derivation leaves `typ` nil, so the
deferred nil-receiver `Close` panics on return instead of the error being
returned; the string case returns inside the switch, so its derived type
is never closed; the slice case calls `typ.Size()` before the error check
and panics there when the derivation failed. -/
def AttributeU.Read (s : Record) (data : Value) : TraceResult :=
  match data with
  | .ptr v =>
    match v with
    | .array elemK elems =>
      if elems.length = 0 then
        ⟨.ok, data, s, 0, 0, 0⟩
      else
        match NewDataTypeFromType (.scalarT elemK) with
        | .error _ => ⟨.panicked, data, s, 0, 0, 0⟩
        | .ok _ =>
          match s.stored with
          | .elems _ vs =>
            ⟨.ok, .ptr (.array elemK (overwrite elems vs)), s, 1, 1, 1⟩
          | .text _ =>
            ⟨.error (.transferFailed (-1)), data, s, 1, 1, 1⟩
    | .str ds =>
      match NewDataTypeFromType .stringT with
      | .error _ => ⟨.panicked, data, s, 0, 0, 0⟩
      | .ok _ =>
        let ln := s.stored.storageSize
        let buf := if ln ≤ ds.length then ds.take ln
                   else List.replicate ln nullChar
        match s.stored with
        | .text t =>
          ⟨.ok, .ptr (.str (trimNulls (overwrite buf t))), s, 1, 1, 0⟩
        | .elems _ _ =>
          ⟨.error (.transferFailed (-1)), data, s, 1, 1, 0⟩
    | .slice elemK elems spare =>
      match NewDataTypeFromType (.scalarT elemK) with
      | .error _ => ⟨.panicked, data, s, 0, 0, 0⟩
      | .ok typ =>
        let ln := s.stored.storageSize / typ.goKind.size
        let es := if ln ≤ elems.length + spare.length
                  then (elems ++ spare).take ln else List.replicate ln 0
        let sp := if ln ≤ elems.length + spare.length
                  then (elems ++ spare).drop ln else []
        match s.stored with
        | .elems _ vs =>
          ⟨.ok, .ptr (.slice elemK (overwrite es vs) sp), s, 1, 1, 1⟩
        | .text _ =>
          ⟨.error (.transferFailed (-1)), data, s, 1, 1, 1⟩
    | .ptr p =>
      let inner := AttributeU.Read s (.ptr p)
      { inner with dest := .ptr inner.dest }
    | .ptrNil =>
      let inner := AttributeU.Read s .ptrNil
      { inner with dest := .ptr inner.dest }
    | .scalar k val =>
      match NewDataTypeFromType (.scalarT k) with
      | .error _ => ⟨.panicked, data, s, 0, 0, 0⟩
      | .ok _ =>
        match s.stored with
        | .elems _ vs =>
          ⟨.ok, .ptr (.scalar k (vs.headD val)), s, 1, 1, 1⟩
        | .text _ =>
          ⟨.error (.transferFailed (-1)), data, s, 1, 1, 1⟩
  | _ => ⟨.error (.invalidTarget data.kindName), data, s, 0, 0, 0⟩

/-- Dataset.ReadSubset of h5d.go (lines 64-111): require a non-nil
pointer, derive the storage type from the destination's element type,
resolve the address of the destination's existing backing storage (no
zero-length short-circuit, no resize of slices, no storage-size query,
no trimming for strings), register `defer typ.Close()` before checking
the derivation error (so a failed derivation panics in the deferred
nil-receiver `Close` on return), then invoke the raw read over the given
or default shapes. The raw store read is modelled from the spec: it
copies the record's stored contents into the destination's backing
storage, which keeps its length. -/
def Dataset.ReadSubset (s : Record) (data : Value)
    (memspace filespace : Option Nat) : TraceResult :=
  match data with
  | .ptr v =>
    match v with
    | .array elemK elems =>
      match NewDataTypeFromType (.scalarT elemK) with
      | .error _ => ⟨.panicked, data, s, 0, 0, 0⟩
      | .ok _ =>
        match s.stored with
        | .elems _ vs =>
          ⟨.ok, .ptr (.array elemK (overwrite elems vs)), s, 1, 1, 1⟩
        | .text _ =>
          ⟨.error (.transferFailed (-1)), data, s, 1, 1, 1⟩
    | .slice elemK elems spare =>
      match NewDataTypeFromType (.scalarT elemK) with
      | .error _ => ⟨.panicked, data, s, 0, 0, 0⟩
      | .ok _ =>
        match s.stored with
        | .elems _ vs =>
          ⟨.ok, .ptr (.slice elemK (overwrite elems vs) spare), s, 1, 1, 1⟩
        | .text _ =>
          ⟨.error (.transferFailed (-1)), data, s, 1, 1, 1⟩
    | .str ds =>
      match NewDataTypeFromType .stringT with
      | .error _ => ⟨.panicked, data, s, 0, 0, 0⟩
      | .ok _ =>
        match s.stored with
        | .text t =>
          ⟨.ok, .ptr (.str (overwrite ds t)), s, 1, 1, 1⟩
        | .elems _ _ =>
          ⟨.error (.transferFailed (-1)), data, s, 1, 1, 1⟩
    | .ptr p =>
      let inner := Dataset.ReadSubset s (.ptr p) memspace filespace
      { inner with dest := .ptr inner.dest }
    | .ptrNil =>
      let inner := Dataset.ReadSubset s .ptrNil memspace filespace
      { inner with dest := .ptr inner.dest }
    | .scalar k val =>
      match NewDataTypeFromType (.scalarT k) with
      | .error _ => ⟨.panicked, data, s, 0, 0, 0⟩
      | .ok _ =>
        match s.stored with
        | .elems _ vs =>
          ⟨.ok, .ptr (.scalar k (vs.headD val)), s, 1, 1, 1⟩
        | .text _ =>
          ⟨.error (.transferFailed (-1)), data, s, 1, 1, 1⟩
  | _ => ⟨.error (.invalidTarget data.kindName), data, s, 0, 0, 0⟩

/-- Dataset.Read of h5d.go (lines 114-116): ReadSubset with nil shapes. -/
def Dataset.Read (s : Record) (data : Value) : TraceResult :=
  Dataset.ReadSubset s data none none

/-- Raw write of flat elements into a dataset record (the `H5Dwrite` call
of h5d.go line 157). Modelled from the spec: the record's stored elements
take the source bytes, the record keeping its on-disk element count. -/
def Dataset.writeRaw (s : Record) (data : Value) (src : List Int) :
    TraceResult :=
  match s.stored with
  | .elems k0 vs =>
    ⟨.ok, data, { s with stored := .elems k0 (overwrite vs src) }, 1, 1, 1⟩
  | .text _ =>
    ⟨.error (.transferFailed (-1)), data, s, 1, 1, 1⟩

/-- Dataset.WriteSubset of h5d.go (lines 119-158): query the dataset's
own on-disk type with `Datatype()`, register `defer dtype.Close()` before
checking the query's error (so a failed query panics in the deferred
nil-receiver `Close` on return), take `reflect.Indirect` of the source
and resolve its flat address (a non-pointer or nil-pointer source is not
addressable, so `UnsafeAddr` panics), then invoke the raw write over the
given or default shapes. A pointer-to-pointer source writes the pointee's
flat elements. The raw store write for text is modelled from the spec:
the record's fixed-size text cell takes the text truncated or null-padded
to its capacity. -/
def Dataset.WriteSubset (s : Record) (data : Value)
    (memspace filespace : Option Nat) : TraceResult :=
  match Dataset.Datatype s with
  | .error _ => ⟨.panicked, data, s, 0, 0, 0⟩
  | .ok _ =>
    match data with
    | .ptr v =>
      match v with
      | .array _ elems => Dataset.writeRaw s data elems
      | .slice _ elems _spare => Dataset.writeRaw s data elems
      | .str sv =>
        match s.stored with
        | .text t0 =>
          ⟨.ok, data, { s with stored := .text (padTo t0.length sv) }, 1, 1, 1⟩
        | .elems _ _ =>
          ⟨.error (.transferFailed (-1)), data, s, 1, 1, 1⟩
      | .ptr (.array _ es) => Dataset.writeRaw s data es
      | .ptr (.slice _ es _) => Dataset.writeRaw s data es
      | .ptr (.scalar _ x) => Dataset.writeRaw s data [x]
      | .ptr _ => ⟨.error (.transferFailed (-1)), data, s, 1, 1, 1⟩
      | .ptrNil => ⟨.error (.transferFailed (-1)), data, s, 1, 1, 1⟩
      | .scalar _ x => Dataset.writeRaw s data [x]
    | _ => ⟨.panicked, data, s, 0, 1, 1⟩

/-- Dataset.Write of h5d.go (lines 161-163): WriteSubset with nil
shapes. -/
def Dataset.Write (s : Record) (data : Value) : TraceResult :=
  Dataset.WriteSubset s data none none

theorem overwrite_of_length_eq {α : Type} {dst src : List α}
    (h : dst.length = src.length) : overwrite dst src = src := by
  unfold overwrite
  rw [h, List.take_length, ← h, List.drop_length, List.append_nil]

theorem overwrite_length {α : Type} (dst src : List α) :
    (overwrite dst src).length = dst.length := by
  simp [overwrite]
  omega

theorem GoKind.size_pos {k : GoKind} (h : k.supported = true) : 0 < k.size := by
  cases k <;> simp_all [GoKind.supported, GoKind.size]

theorem dropWhile_replicate_append (m : Nat) (l : List Char) :
    List.dropWhile (fun c => c = nullChar) (List.replicate m nullChar ++ l)
      = List.dropWhile (fun c => c = nullChar) l := by
  induction m with
  | zero => simp
  | succ n ih => simp [List.replicate_succ, List.dropWhile_cons, ih]

theorem trimNulls_append_replicate (s : List Char) (m : Nat)
    (h1 : s.dropWhile (fun c => c = nullChar) = s)
    (h2 : s.reverse.dropWhile (fun c => c = nullChar) = s.reverse) :
    trimNulls (s ++ List.replicate m nullChar) = s := by
  unfold trimNulls
  cases s with
  | nil =>
    have h0 : List.dropWhile (fun c => c = nullChar)
        (List.replicate m nullChar) = [] := by
      simpa using dropWhile_replicate_append m []
    simp [h0]
  | cons a t =>
    have ha : ¬ (a = nullChar) := by
      have := List.dropWhile_eq_self_iff.mp h1
      simpa using this (by simp)
    have hfront : List.dropWhile (fun c => c = nullChar)
        ((a :: t) ++ List.replicate m nullChar)
        = a :: (t ++ List.replicate m nullChar) := by
      simp [List.dropWhile_cons, ha]
    rw [hfront]
    have hrev : (a :: (t ++ List.replicate m nullChar)).reverse
        = List.replicate m nullChar ++ (a :: t).reverse := by
      rw [← List.cons_append, List.reverse_append, List.reverse_replicate]
    rw [hrev, dropWhile_replicate_append, h2, List.reverse_reverse]

theorem readBuf_length (ds : List Char) (ln : Nat) :
    (if ln ≤ ds.length then ds.take ln
     else List.replicate ln nullChar).length = ln := by
  split
  · simp [List.length_take]
    omega
  · simp

theorem padTo_eq_append {cap : Nat} {s : List Char} (h : s.length ≤ cap) :
    padTo cap s = s ++ List.replicate (cap - s.length) nullChar := by
  simp [padTo, List.take_of_length_le h]

theorem attrRead_text (r : Record) (t ds : List Char)
    (hty : r.dtype = .string) (hst : r.stored = .text t) :
    Attribute.Read r (.ptr (.str ds))
      = ⟨.ok, .ptr (.str (trimNulls t)), r, 1, 1, 1⟩ := by
  have hbuf : (if t.length ≤ ds.length then ds.take t.length
      else List.replicate t.length nullChar).length = t.length :=
    readBuf_length ds t.length
  have hov := overwrite_of_length_eq hbuf
  simp [Attribute.Read, Attribute.GetType, hty, hst, Stored.storageSize, hov]

/-- C6: for every Record (Attribute or Dataset), calling Close a second
time after a first Close is safe and returns success (nil), performs no
underlying store close call, and has no effect on the already-closed
handle. -/
theorem C6_close_idempotent (r : Record) :
    Attribute.Close (Attribute.Close r).record
      = ⟨(Attribute.Close r).record, none, 0⟩
    ∧ Dataset.Close (Dataset.Close r).record
      = ⟨(Dataset.Close r).record, none, 0⟩ := by
  by_cases h : r.id = 0 <;> simp [Attribute.Close, Dataset.Close, h]

/-- C10: Close on an open Attribute or Dataset sets the stored handle to 0
unconditionally, even when the store's close reports an error; the failing
close reports its error exactly once, the underlying handle is never
passed to the store's close a second time, and every subsequent Close
returns success. -/
theorem C10_close_unconditional (r : Record) (h : r.id ≠ 0) :
    (Attribute.Close r).record.id = 0
    ∧ (Attribute.Close r).err
        = (if r.closeFails then some .closeFailed else none)
    ∧ (Attribute.Close r).storeCalls = 1
    ∧ Attribute.Close (Attribute.Close r).record
        = ⟨(Attribute.Close r).record, none, 0⟩
    ∧ (Dataset.Close r).record.id = 0
    ∧ (Dataset.Close r).err
        = (if r.closeFails then some .closeFailed else none)
    ∧ (Dataset.Close r).storeCalls = 1
    ∧ Dataset.Close (Dataset.Close r).record
        = ⟨(Dataset.Close r).record, none, 0⟩ := by
  simp [Attribute.Close, Dataset.Close, h]

theorem C10_close_unconditional_witness :
    (Attribute.Close ⟨3, .int, .elems .int [], true⟩).record.id = 0
    ∧ (Attribute.Close ⟨3, .int, .elems .int [], true⟩).err
        = some .closeFailed
    ∧ (Attribute.Close ⟨3, .int, .elems .int [], true⟩).storeCalls = 1
    ∧ (Dataset.Close ⟨3, .int, .elems .int [], true⟩).storeCalls = 1 := by
  have h := C10_close_unconditional ⟨3, .int, .elems .int [], true⟩ (by decide)
  exact ⟨h.1, by simpa using h.2.1, h.2.2.1, h.2.2.2.2.2.2.1⟩

/-- C8: every Read call (Attribute.Read, the unnamed Attribute.Read
variant, Dataset.Read and Dataset.ReadSubset) whose destination argument
is not a pointer or is a nil pointer fails with an InvalidTarget error
naming the destination's kind, with no transfer invoked and nothing
touched. -/
theorem C8_invalid_target (r : Record) (d : Value) (ms fs : Option Nat)
    (h : d.isReadTarget = false) :
    Attribute.Read r d = ⟨.error (.invalidTarget d.kindName), d, r, 0, 0, 0⟩
    ∧ AttributeU.Read r d
        = ⟨.error (.invalidTarget d.kindName), d, r, 0, 0, 0⟩
    ∧ Dataset.ReadSubset r d ms fs
        = ⟨.error (.invalidTarget d.kindName), d, r, 0, 0, 0⟩
    ∧ Dataset.Read r d
        = ⟨.error (.invalidTarget d.kindName), d, r, 0, 0, 0⟩ := by
  cases d <;> simp_all [Value.isReadTarget, Attribute.Read, AttributeU.Read,
    Dataset.ReadSubset, Dataset.Read]

theorem C8_invalid_target_witness :
    Attribute.Read ⟨1, .int, .elems .int [0], false⟩ (.scalar .int 5)
      = ⟨.error (.invalidTarget "int"), .scalar .int 5,
         ⟨1, .int, .elems .int [0], false⟩, 0, 0, 0⟩
    ∧ Dataset.Read ⟨1, .int, .elems .int [0], false⟩ .ptrNil
      = ⟨.error (.invalidTarget "ptr"), .ptrNil,
         ⟨1, .int, .elems .int [0], false⟩, 0, 0, 0⟩ := by
  have h1 := C8_invalid_target ⟨1, .int, .elems .int [0], false⟩
    (.scalar .int 5) none none (by decide)
  have h2 := C8_invalid_target ⟨1, .int, .elems .int [0], false⟩
    .ptrNil none none (by decide)
  exact ⟨by simpa [Value.kindName, GoKind.name] using h1.1,
         by simpa [Value.kindName] using h2.2.2.2⟩

/-- C7 (amended): reading into a zero-length fixed-array destination is a
no-op success that invokes no raw transfer and leaves the destination
untouched for Attribute.Read (h5a.go and the unnamed variant alike);
Dataset.ReadSubset has no zero-length short-circuit and still invokes the
raw transfer for a zero-length fixed-array destination. -/
theorem C7_empty_array_noop (r : Record) (k : GoKind) :
    Attribute.Read r (.ptr (.array k []))
      = ⟨.ok, .ptr (.array k []), r, 0, 1, 1⟩
    ∧ AttributeU.Read r (.ptr (.array k []))
      = ⟨.ok, .ptr (.array k []), r, 0, 0, 0⟩
    ∧ (Dataset.ReadSubset r (.ptr (.array .int [])) none none).transfers
      = 1 := by
  refine ⟨rfl, rfl, ?_⟩
  cases h : r.stored <;>
    simp [Dataset.ReadSubset, NewDataTypeFromType, GoKind.supported, h]

/-- C7 counterexample: on a Dataset, a zero-length fixed-array destination
does not short-circuit the read: the raw transfer is still invoked. -/
theorem C7_counterexample :
    (Dataset.ReadSubset ⟨5, .int, .elems .int [1, 2, 3], false⟩
      (.ptr (.array .int [])) none none).transfers ≠ 0 := by decide

/-- C5 (code bug): Attribute.Write derives a StorageType from the
source's in-process type and returns without ever closing it — h5a.go
lines 183-206 contain no Close on the derived dtype, on the string path
or on the common path — so the invariant that every StorageType derived
during a transfer is closed before the call returns is violated on every
successful Write: one type handle is opened and none is closed. -/
theorem C5_write_leaks_type :
    (Attribute.Write ⟨3, .int, .elems .int [7], false⟩
        (.ptr (.scalar .int 42))).typesOpened = 1
    ∧ (Attribute.Write ⟨3, .int, .elems .int [7], false⟩
        (.ptr (.scalar .int 42))).typesClosed = 0
    ∧ (Attribute.Write ⟨3, .int, .elems .int [7], false⟩
        (.ptr (.scalar .int 42))).status = .ok
    ∧ (Attribute.Write ⟨9, .string, .text (List.replicate 4 nullChar), false⟩
        (.ptr (.str ['h', 'i']))).typesOpened = 1
    ∧ (Attribute.Write ⟨9, .string, .text (List.replicate 4 nullChar), false⟩
        (.ptr (.str ['h', 'i']))).typesClosed = 0
    ∧ (Attribute.Write ⟨9, .string, .text (List.replicate 4 nullChar), false⟩
        (.ptr (.str ['h', 'i']))).status = .ok := by decide

/-- C9: when storage-type derivation or query fails, the
defer-before-error-check pattern makes the call panic through the
deferred nil-receiver Close on return, instead of returning the error:
Dataset.ReadSubset and the unnamed Attribute.Read variant panic whenever
NewDataTypeFromType fails on the destination's element type, and
Dataset.WriteSubset panics whenever the Datatype query fails (closed
handle). -/
theorem C9_defer_nil_panic (r r2 : Record) (k : GoKind) (d : Value)
    (ms fs : Option Nat)
    (hk : ∃ e, NewDataTypeFromType (.scalarT k) = .error e)
    (h2 : r2.id = 0) :
    (Dataset.ReadSubset r (.ptr (.scalar k 0)) ms fs).status = .panicked
    ∧ (AttributeU.Read r (.ptr (.scalar k 0))).status = .panicked
    ∧ (Dataset.WriteSubset r2 d ms fs).status = .panicked := by
  obtain ⟨e, he⟩ := hk
  refine ⟨?_, ?_, ?_⟩
  · simp [Dataset.ReadSubset, he]
  · simp [AttributeU.Read, he]
  · simp [Dataset.WriteSubset, Dataset.Datatype, h2]

theorem C9_defer_nil_panic_witness :
    (Dataset.ReadSubset ⟨4, .int, .elems .int [1], false⟩
        (.ptr (.scalar (.other "chan") 0)) none none).status = .panicked
    ∧ (AttributeU.Read ⟨4, .int, .elems .int [1], false⟩
        (.ptr (.scalar (.other "chan") 0))).status = .panicked
    ∧ (Dataset.WriteSubset ⟨0, .int, .elems .int [1], false⟩
        (.ptr (.scalar .int 1)) none none).status = .panicked := by
  exact C9_defer_nil_panic ⟨4, .int, .elems .int [1], false⟩
    ⟨0, .int, .elems .int [1], false⟩ (.other "chan") (.ptr (.scalar .int 1))
    none none ⟨.unsupportedType (.scalarT (.other "chan")), rfl⟩ rfl

/-- C4 (amended): when Attribute.Read queries the record's actual on-disk
type via GetType, a destination whose in-process element type differs from
the record's native kind fails with a TypeMismatch error naming the
record's and the destination's types, with no raw transfer invoked and
the destination untouched — except a zero-length fixed-array destination,
which returns no-op success before the validation runs. -/
theorem C4_type_validation (r : Record) (v : Value) (k : GoKind)
    (hv : v.elemKind = some k) (hne : k ≠ r.dtype)
    (hz : v.isEmptyArray = false) :
    Attribute.Read r (.ptr v)
      = ⟨.error (.typeMismatch r.dtype k), .ptr v, r, 0, 1, 1⟩ := by
  cases v with
  | ptrNil => simp [Value.elemKind] at hv
  | ptr p => simp [Value.elemKind] at hv
  | array k2 es =>
    simp only [Value.elemKind, Option.some.injEq] at hv
    subst hv
    cases es with
    | nil => simp [Value.isEmptyArray] at hz
    | cons a t => simp [Attribute.Read, Attribute.GetType, hne]
  | slice k2 es sp =>
    simp only [Value.elemKind, Option.some.injEq] at hv
    subst hv
    simp [Attribute.Read, Attribute.GetType, hne]
  | str s =>
    simp only [Value.elemKind, Option.some.injEq] at hv
    subst hv
    have hds : r.dtype ≠ .string := fun h => hne h.symm
    simp [Attribute.Read, Attribute.GetType, hds]
  | scalar k2 x =>
    simp only [Value.elemKind, Option.some.injEq] at hv
    subst hv
    simp [Attribute.Read, Attribute.GetType, hne]

/-- C4 counterexample: a zero-length fixed-array destination whose element
type differs from the record's on-disk kind is not rejected: Attribute.Read
returns success, so a type mismatch does not always fail with a
TypeMismatch error. -/
theorem C4_counterexample :
    GoKind.float64 ≠ (⟨3, .int, .elems .int [1], false⟩ : Record).dtype
    ∧ (Attribute.Read ⟨3, .int, .elems .int [1], false⟩
        (.ptr (.array .float64 []))).status = .ok := by decide

theorem C4_type_validation_witness :
    Attribute.Read ⟨2, .int, .elems .int [5], false⟩
        (.ptr (.scalar .float64 0))
      = ⟨.error (.typeMismatch .int .float64), .ptr (.scalar .float64 0),
         ⟨2, .int, .elems .int [5], false⟩, 0, 1, 1⟩ := by
  exact C4_type_validation ⟨2, .int, .elems .int [5], false⟩
    (.scalar .float64 0) .float64 rfl (by decide) rfl

/-- C3 (amended): for a text destination, Attribute.Read computes the
on-disk byte length with the storage-size query, transfers into a buffer
of that length, unconditionally strips padding characters from both ends
of the result and commits the trimmed text into the destination;
Dataset.ReadSubset has no storage-size-driven buffer preparation and no
trimming: it transfers the stored bytes straight into the destination's
existing backing bytes, which keep their length. -/
theorem C3_text_read (r : Record) (t ds : List Char)
    (hty : r.dtype = .string) (hst : r.stored = .text t) :
    Attribute.Read r (.ptr (.str ds))
      = ⟨.ok, .ptr (.str (trimNulls t)), r, 1, 1, 1⟩
    ∧ Dataset.ReadSubset r (.ptr (.str ds)) none none
      = ⟨.ok, .ptr (.str (overwrite ds t)), r, 1, 1, 1⟩ := by
  constructor
  · exact attrRead_text r t ds hty hst
  · simp [Dataset.ReadSubset, NewDataTypeFromType, hst]

/-- C3 counterexample: a Dataset text read does not strip padding: the
text committed into the destination keeps its trailing null padding, so
the unconditional both-ends trim claimed for both record kinds does not
happen on Dataset.Read/ReadSubset. -/
theorem C3_counterexample :
    (Dataset.ReadSubset
        ⟨6, .string, .text ('h' :: 'i' :: List.replicate 6 nullChar), false⟩
        (.ptr (.str (List.replicate 8 'A'))) none none).dest
      ≠ .ptr (.str (trimNulls ('h' :: 'i' :: List.replicate 6 nullChar))) := by
  decide

theorem C3_text_read_witness :
    Attribute.Read
        ⟨6, .string, .text ('h' :: 'i' :: List.replicate 6 nullChar), false⟩
        (.ptr (.str []))
      = ⟨.ok, .ptr (.str ['h', 'i']),
         ⟨6, .string, .text ('h' :: 'i' :: List.replicate 6 nullChar), false⟩,
         1, 1, 1⟩ := by
  have h := (C3_text_read
    ⟨6, .string, .text ('h' :: 'i' :: List.replicate 6 nullChar), false⟩
    ('h' :: 'i' :: List.replicate 6 nullChar) [] rfl rfl).1
  have ht : trimNulls ('h' :: 'i' :: List.replicate 6 nullChar)
      = ['h', 'i'] := by decide
  rw [ht] at h
  exact h

/-- C2 (amended): for slice destinations, Attribute.Read resizes the
destination to storageByteSize / elementStorageSize before resolving the
transfer address — reusing the existing backing storage when its capacity
already covers that count, otherwise allocating fresh storage — so the
final length equals the on-disk element count regardless of the
destination's initial length or capacity; Dataset.Read/ReadSubset
performs no such resize: its slice destination keeps its initial
length. -/
theorem C2_slice_resize (r : Record) (k : GoKind) (vs elems spare : List Int)
    (hty : r.dtype = k) (hst : r.stored = .elems k vs)
    (hk : k.supported = true) :
    (Attribute.Read r (.ptr (.slice k elems spare))).dest
      = (if vs.length ≤ elems.length + spare.length
         then .ptr (.slice k vs ((elems ++ spare).drop vs.length))
         else .ptr (.slice k vs []))
    ∧ (Attribute.Read r (.ptr (.slice k elems spare))).dest.seqLen
      = some (r.stored.storageSize / k.size)
    ∧ (Attribute.Read r (.ptr (.slice k elems spare))).status = .ok
    ∧ (Dataset.ReadSubset r (.ptr (.slice k elems spare)) none none).dest.seqLen
      = some elems.length := by
  have hsz : 0 < k.size := GoKind.size_pos hk
  have hln : vs.length * k.size / k.size = vs.length := Nat.mul_div_cancel _ hsz
  by_cases hcap : vs.length ≤ elems.length + spare.length
  · have hes : ((elems ++ spare).take vs.length).length = vs.length := by
      simp [List.length_take]
      omega
    have hov := overwrite_of_length_eq hes
    refine ⟨?_, ?_, ?_, ?_⟩ <;>
      simp [Attribute.Read, Dataset.ReadSubset, Attribute.GetType, hty, hst,
        Stored.storageSize, NewDataTypeFromType, hk, hln, hcap, hov,
        Value.seqLen, overwrite_length]
  · have hes : (List.replicate vs.length (0 : Int)).length = vs.length := by
      simp
    have hov := overwrite_of_length_eq hes
    refine ⟨?_, ?_, ?_, ?_⟩ <;>
      simp [Attribute.Read, Dataset.ReadSubset, Attribute.GetType, hty, hst,
        Stored.storageSize, NewDataTypeFromType, hk, hln, hcap, hov,
        Value.seqLen, overwrite_length]

/-- C2 counterexample: Dataset.ReadSubset does not resize a slice
destination: reading a record holding 5 elements into a 2-element
destination leaves a 2-element result, not the claimed
storageByteSize / elementStorageSize = 5 elements. -/
theorem C2_counterexample :
    (Dataset.ReadSubset ⟨5, .int, .elems .int [10, 20, 30, 40, 50], false⟩
        (.ptr (.slice .int [0, 0] [])) none none).dest.seqLen
      ≠ some ((Stored.elems .int [10, 20, 30, 40, 50]).storageSize
              / GoKind.int.size) := by decide

theorem C2_slice_resize_witness :
    (Attribute.Read ⟨1, .int, .elems .int [1, 2, 3], false⟩
        (.ptr (.slice .int [0, 0] []))).dest.seqLen = some 3
    ∧ (Attribute.Read ⟨1, .int, .elems .int [1, 2, 3], false⟩
        (.ptr (.slice .int [0, 0] []))).dest
      = .ptr (.slice .int [1, 2, 3] []) := by
  have h := C2_slice_resize ⟨1, .int, .elems .int [1, 2, 3], false⟩ .int
    [1, 2, 3] [0, 0] [] rfl rfl rfl
  refine ⟨by simpa [Stored.storageSize, GoKind.size] using h.2.1, ?_⟩
  have h1 := h.1
  simpa using h1

/-- C1 (amended): Write followed by Read into a zero-valued destination of
the same in-process type round-trips scalars and fixed arrays exactly, on
both record kinds (attribute and dataset records whose on-disk shape
matches the value); attribute text round-trips exactly for values with no
leading and no trailing padding characters that fit the record's text
cell — interior non-padding characters are preserved and padding is
stripped from BOTH ends, not only trailing, so values with leading or
trailing padding come back trimmed — and dataset text is not covered,
since Dataset.Read performs no trimming or buffer preparation. -/
theorem C1_round_trip :
    (∀ (r : Record) (k : GoKind) (x val : Int),
      r.dtype = k → r.stored = .elems k [x] → k.supported = true →
      (Attribute.Read (Attribute.Write r (.ptr (.scalar k val))).record
          (.ptr (.scalar k 0))).dest = .ptr (.scalar k val)
      ∧ (Attribute.Read (Attribute.Write r (.ptr (.scalar k val))).record
          (.ptr (.scalar k 0))).status = .ok)
    ∧ (∀ (r : Record) (k : GoKind) (vs0 elems : List Int),
      r.dtype = k → r.stored = .elems k vs0 → vs0.length = elems.length →
      k.supported = true →
      (Attribute.Read (Attribute.Write r (.ptr (.array k elems))).record
          (.ptr (.array k (List.replicate elems.length 0)))).dest
        = .ptr (.array k elems)
      ∧ (Attribute.Read (Attribute.Write r (.ptr (.array k elems))).record
          (.ptr (.array k (List.replicate elems.length 0)))).status = .ok)
    ∧ (∀ (r : Record) (t0 sv : List Char),
      r.dtype = .string → r.stored = .text t0 → sv.length ≤ t0.length →
      sv.dropWhile (fun c => c = nullChar) = sv →
      sv.reverse.dropWhile (fun c => c = nullChar) = sv.reverse →
      (Attribute.Read (Attribute.Write r (.ptr (.str sv))).record
          (.ptr (.str []))).dest = .ptr (.str sv)
      ∧ (Attribute.Read (Attribute.Write r (.ptr (.str sv))).record
          (.ptr (.str []))).status = .ok)
    ∧ (∀ (r : Record) (k : GoKind) (x val : Int),
      r.id ≠ 0 → r.stored = .elems k [x] → k.supported = true →
      (Dataset.ReadSubset
          (Dataset.WriteSubset r (.ptr (.scalar k val)) none none).record
          (.ptr (.scalar k 0)) none none).dest = .ptr (.scalar k val)
      ∧ (Dataset.ReadSubset
          (Dataset.WriteSubset r (.ptr (.scalar k val)) none none).record
          (.ptr (.scalar k 0)) none none).status = .ok)
    ∧ (∀ (r : Record) (k : GoKind) (vs0 elems : List Int),
      r.id ≠ 0 → r.stored = .elems k vs0 → vs0.length = elems.length →
      k.supported = true →
      (Dataset.ReadSubset
          (Dataset.WriteSubset r (.ptr (.array k elems)) none none).record
          (.ptr (.array k (List.replicate elems.length 0))) none none).dest
        = .ptr (.array k elems)
      ∧ (Dataset.ReadSubset
          (Dataset.WriteSubset r (.ptr (.array k elems)) none none).record
          (.ptr (.array k (List.replicate elems.length 0))) none none).status
        = .ok) := by
  refine ⟨?_, ?_, ?_, ?_, ?_⟩
  · intro r k x val hty hst hk
    have hov : overwrite [x] [val] = [val] := rfl
    constructor <;>
      simp [Attribute.Write, Attribute.writeElems, NewDataTypeFromType, hk,
        hst, hty, hov, Attribute.Read, Attribute.GetType]
  · intro r k vs0 elems hty hst hlen hk
    have hov1 : overwrite vs0 elems = elems := overwrite_of_length_eq hlen
    by_cases hn : elems = []
    · subst hn
      constructor <;>
        simp [Attribute.Write, Attribute.writeElems, NewDataTypeFromType, hk,
          hst, Attribute.Read, Attribute.GetType]
    · have hov2 : overwrite (List.replicate elems.length (0 : Int)) elems
          = elems := overwrite_of_length_eq (by simp)
      have hne : elems.length ≠ 0 := by
        cases elems
        · exact absurd rfl hn
        · simp
      constructor <;>
        simp [Attribute.Write, Attribute.writeElems, NewDataTypeFromType, hk,
          hst, hty, hov1, hov2, hne, Attribute.Read, Attribute.GetType]
  · intro r t0 sv hty hst hfit h1 h2
    have hw : Attribute.Write r (.ptr (.str sv))
        = ⟨.ok, .ptr (.str sv),
           { r with stored := .text (padTo t0.length sv) }, 1, 1, 0⟩ := by
      simp [Attribute.Write, NewDataTypeFromType, hst]
    have hr := attrRead_text { r with stored := .text (padTo t0.length sv) }
      (padTo t0.length sv) [] (by simpa using hty) rfl
    have htrim : trimNulls (padTo t0.length sv) = sv := by
      rw [padTo_eq_append hfit]
      exact trimNulls_append_replicate sv _ h1 h2
    rw [hw]
    constructor <;> simp [hr, htrim]
  · intro r k x val hid hst hk
    have hw : Dataset.WriteSubset r (.ptr (.scalar k val)) none none
        = ⟨.ok, .ptr (.scalar k val),
           { r with stored := .elems k (overwrite [x] [val]) }, 1, 1, 1⟩ := by
      simp [Dataset.WriteSubset, Dataset.Datatype, hid, Dataset.writeRaw, hst]
    have hov : overwrite [x] [val] = [val] := rfl
    rw [hw]
    constructor <;>
      simp [Dataset.ReadSubset, NewDataTypeFromType, hk, hov]
  · intro r k vs0 elems hid hst hlen hk
    have hov1 : overwrite vs0 elems = elems := overwrite_of_length_eq hlen
    have hov2 : overwrite (List.replicate elems.length (0 : Int)) elems
        = elems := overwrite_of_length_eq (by simp)
    have hw : Dataset.WriteSubset r (.ptr (.array k elems)) none none
        = ⟨.ok, .ptr (.array k elems),
           { r with stored := .elems k (overwrite vs0 elems) }, 1, 1, 1⟩ := by
      simp [Dataset.WriteSubset, Dataset.Datatype, hid, Dataset.writeRaw, hst]
    rw [hw]
    constructor <;>
      simp [Dataset.ReadSubset, NewDataTypeFromType, hk, hov1, hov2]

/-- C1 counterexample: the round-trip law fails as stated: an attribute
text value with a leading padding character comes back with that padding
stripped from the front as well (strings.Trim trims both ends), and a
dataset text value written to an 8-byte text record and read back into a
zero-valued (empty) text destination comes back empty, since Dataset
reads prepare no buffer from the storage size. -/
theorem C1_counterexample :
    (Attribute.Read
        (Attribute.Write ⟨2, .string, .text (List.replicate 8 nullChar), false⟩
          (.ptr (.str [nullChar, 'h', 'i']))).record
        (.ptr (.str []))).dest
      ≠ .ptr (.str [nullChar, 'h', 'i'])
    ∧ (Dataset.ReadSubset
        (Dataset.WriteSubset ⟨4, .string, .text (List.replicate 8 nullChar), false⟩
          (.ptr (.str ['h', 'e', 'l', 'l', 'o'])) none none).record
        (.ptr (.str [])) none none).dest
      ≠ .ptr (.str ['h', 'e', 'l', 'l', 'o']) := by decide

theorem C1_round_trip_witness :
    (Attribute.Read
        (Attribute.Write ⟨1, .int, .elems .int [0], false⟩
          (.ptr (.scalar .int 42))).record
        (.ptr (.scalar .int 0))).dest = .ptr (.scalar .int 42)
    ∧ (Attribute.Read
        (Attribute.Write ⟨1, .int, .elems .int [9, 9], false⟩
          (.ptr (.array .int [5, 6]))).record
        (.ptr (.array .int (List.replicate 2 0)))).dest
      = .ptr (.array .int [5, 6])
    ∧ (Attribute.Read
        (Attribute.Write ⟨2, .string, .text (List.replicate 8 nullChar), false⟩
          (.ptr (.str ['h', 'i']))).record
        (.ptr (.str []))).dest = .ptr (.str ['h', 'i'])
    ∧ (Dataset.ReadSubset
        (Dataset.WriteSubset ⟨3, .float64, .elems .float64 [0], false⟩
          (.ptr (.scalar .float64 7)) none none).record
        (.ptr (.scalar .float64 0)) none none).dest
      = .ptr (.scalar .float64 7)
    ∧ (Dataset.ReadSubset
        (Dataset.WriteSubset ⟨3, .float64, .elems .float64 [0, 0, 0], false⟩
          (.ptr (.array .float64 [1, 2, 3])) none none).record
        (.ptr (.array .float64 (List.replicate 3 0))) none none).dest
      = .ptr (.array .float64 [1, 2, 3]) := by
  refine ⟨?_, ?_, ?_, ?_, ?_⟩
  · exact (C1_round_trip.1 ⟨1, .int, .elems .int [0], false⟩ .int 0 42
      rfl rfl rfl).1
  · exact (C1_round_trip.2.1 ⟨1, .int, .elems .int [9, 9], false⟩ .int
      [9, 9] [5, 6] rfl rfl rfl rfl).1
  · exact (C1_round_trip.2.2.1
      ⟨2, .string, .text (List.replicate 8 nullChar), false⟩
      (List.replicate 8 nullChar) ['h', 'i'] rfl rfl (by decide) (by decide)
      (by decide)).1
  · exact (C1_round_trip.2.2.2.1 ⟨3, .float64, .elems .float64 [0], false⟩
      .float64 0 7 (by decide) rfl rfl).1
  · exact (C1_round_trip.2.2.2.2 ⟨3, .float64, .elems .float64 [0, 0, 0], false⟩
      .float64 [0, 0, 0] [1, 2, 3] (by decide) rfl rfl rfl).1
